import Mathlib

/-!
Verification of the peppermint Exchange email-to-ticket integration.

This file gives a shallow embedding, in Lean 4, of the TypeScript core of
the integration:

* `apps/api/src/lib/exchange/crypto.ts` — string sanitisation, plain-text
  extraction, PKCE code generation;
* `apps/api/src/lib/exchange/MicrosoftGraphService.ts` — token management
  (`getAccessToken`, `refreshAccessToken`) and the OAuth service
  (`generateAuthUrl`, `handleCallback`, `revokeTokens`);
* `apps/api/src/lib/exchange/EmailProcessingService.ts` — the ingestion
  engine (`processEmails`, `processEmail`, `createTicketFromEmail`,
  `addCommentToTicket`, `linkEmailToTicket`, `logEmailProcessing`);
* `apps/api/src/lib/email/SMTPEmailProvider.ts` — the outbound
  `EmailService.sendTicketEmail` message/header construction.

The Prisma-backed store is modelled as an explicit record of tables
(`Db`); every service method becomes a pure function from the store (and
an environment carrying clock, configuration and the outcome of network
calls) to the new store plus its result.  JavaScript truthiness on
strings, the `substring` truncation, Prisma upsert semantics and the
regular-expression replacements are modelled operation by operation, as
noted at each definition.  Scanning loops over strings recurse
structurally on a fuel argument initialised to the string length (each
step consumes at least one character, so the fuel never runs out); this
keeps every definition reducible by the kernel.
-/

set_option maxRecDepth 4000000

namespace Peppermint

/-- JavaScript truthiness for a string: the empty string is falsy. -/
def jsStrTruthy (s : String) : Bool := !s.isEmpty

/-- JavaScript `a || b` on a possibly-undefined string `a`:
returns `b` when `a` is `undefined` or the empty string. -/
def jsOrStr (a : Option String) (b : String) : String :=
  match a with
  | some s => if s.isEmpty then b else s
  | none => b

/-- JavaScript `a || b` where both sides are possibly-undefined strings. -/
def jsOrOptStr (a b : Option String) : Option String :=
  match a with
  | some s => if s.isEmpty then b else some s
  | none => b

/-- Truthiness of a possibly-undefined string. -/
def jsOptStrTruthy (a : Option String) : Bool :=
  match a with
  | some s => !s.isEmpty
  | none => false

/-- `l` starts with the pattern `pat`, comparing exactly. -/
def startsWithList : List Char → List Char → Bool
  | [], _ => true
  | _ :: _, [] => false
  | p :: ps, c :: cs => (c == p) && startsWithList ps cs

/-- Substring occurrence on character lists (JavaScript
`String.prototype.includes` with a literal needle). -/
def includesList (pat : List Char) : List Char → Bool
  | [] => pat.isEmpty
  | c :: cs => startsWithList pat (c :: cs) || includesList pat cs

/-- JavaScript `String.prototype.includes`. -/
def strIncludes (haystack needle : String) : Bool :=
  includesList needle.data haystack.data

/-- JavaScript `String.prototype.replace` with a global literal pattern:
replace every non-overlapping occurrence, scanning left to right.
An empty pattern never rewrites (the callers only use nonempty ones). -/
def replaceAllList (pat rep : List Char) : Nat → List Char → List Char
  | _, [] => []
  | 0, l => l
  | fuel + 1, c :: cs =>
    if !pat.isEmpty && startsWithList pat (c :: cs) then
      rep ++ replaceAllList pat rep fuel (List.drop pat.length (c :: cs))
    else
      c :: replaceAllList pat rep fuel cs

/-- `replace(/pat/g, rep)` on strings, for a literal pattern. -/
def strReplaceAll (s pat rep : String) : String :=
  String.mk (replaceAllList pat.data rep.data s.data.length s.data)

/-- The whitespace class of the JavaScript regular expressions
(space, tab, newline, carriage return, vertical tab, form feed). -/
def jsIsSpace (c : Char) : Bool :=
  c == ' ' || c == '\t' || c == '\n' || c == '\r' || c == '\x0b' || c == '\x0c'

/-- `replace(/<[^>]*>/g, '')` from `extractPlainText` in `crypto.ts`:
remove every run from a `<` to the next `>` (inclusive); a `<` with no
later `>` is kept, as the regex then fails to match. -/
def stripTagsFuel : Nat → List Char → List Char
  | _, [] => []
  | 0, l => l
  | fuel + 1, c :: rest =>
    if c = '<' then
      if rest.contains '>' then
        stripTagsFuel fuel ((rest.dropWhile (fun x => x ≠ '>')).drop 1)
      else
        c :: rest
    else
      c :: stripTagsFuel fuel rest

/-- `replace(/\s+/g, ' ')`: collapse every whitespace run to one space. -/
def collapseSpacesFuel : Nat → List Char → List Char
  | _, [] => []
  | 0, l => l
  | fuel + 1, c :: rest =>
    if jsIsSpace c then
      ' ' :: collapseSpacesFuel fuel (rest.dropWhile jsIsSpace)
    else
      c :: collapseSpacesFuel fuel rest

/-- JavaScript `String.prototype.trim`: drop whitespace at both ends. -/
def jsTrimList (l : List Char) : List Char :=
  ((l.dropWhile jsIsSpace).reverse.dropWhile jsIsSpace).reverse

/-- JavaScript `String.prototype.trim` on strings. -/
def jsTrim (s : String) : String :=
  String.mk (jsTrimList s.data)

/-- `extractPlainText` from `crypto.ts`: strip HTML tags, decode the six
listed entities, collapse whitespace, and trim — in that order. -/
def extractPlainText (htmlContent : String) : String :=
  let s1 := String.mk (stripTagsFuel htmlContent.data.length htmlContent.data)
  let s2 := strReplaceAll (strReplaceAll (strReplaceAll (strReplaceAll
      (strReplaceAll (strReplaceAll s1 "&nbsp;" " ") "&amp;" "&")
      "&lt;" "<") "&gt;" ">") "&quot;" "\"") "&#39;" "'"
  jsTrim (String.mk (collapseSpacesFuel s2.data.length s2.data))

/-- `l` starts with the (lower-case) pattern, comparing case-insensitively. -/
def startsWithCI : List Char → List Char → Bool
  | [], _ => true
  | _ :: _, [] => false
  | p :: ps, c :: cs => (c.toLower == p) && startsWithCI ps cs

/-- Suffix of `l` just after the first case-insensitive occurrence of the
pattern; `none` when the pattern does not occur in `l`. -/
def dropAfterCI (pat : List Char) : List Char → Option (List Char)
  | [] => if pat.isEmpty then some [] else none
  | c :: cs =>
    if startsWithCI pat (c :: cs) then
      some (List.drop pat.length (c :: cs))
    else
      dropAfterCI pat cs

/-- The JavaScript word-character class `\w` (ASCII letters, digits, `_`). -/
def isWordChar (c : Char) : Bool := c.isAlphanum || c == '_'

/-- One `replace(/<tag\b[^<]*(?:(?!<\/tag>)<[^<]*)*<\/tag>/gi, '')` pass
from `sanitizeEmailContent` in `crypto.ts`: each case-insensitive
`<tag` occurrence at a word boundary that is later closed by the first
case-insensitive `</tag>` is removed together with everything between;
an unclosed opening keeps its text and scanning resumes after it. -/
def removeTagBlocksFuel (tag : List Char) : Nat → List Char → List Char
  | _, [] => []
  | 0, l => l
  | fuel + 1, c :: cs =>
    if startsWithCI ('<' :: tag) (c :: cs) then
      let rest := List.drop ('<' :: tag).length (c :: cs)
      let boundaryOk := match rest with
        | [] => true
        | r :: _ => !(isWordChar r)
      if boundaryOk then
        match dropAfterCI ('<' :: '/' :: (tag ++ ['>'])) rest with
        | some suffix => removeTagBlocksFuel tag fuel suffix
        | none => c :: removeTagBlocksFuel tag fuel cs
      else
        c :: removeTagBlocksFuel tag fuel cs
    else
      c :: removeTagBlocksFuel tag fuel cs

/-- `replace(/pat/gi, '')` for a literal pattern: delete every
case-insensitive occurrence, scanning left to right. -/
def removeAllCIFuel (pat : List Char) : Nat → List Char → List Char
  | _, [] => []
  | 0, l => l
  | fuel + 1, c :: cs =>
    if startsWithCI pat (c :: cs) then
      removeAllCIFuel pat fuel (List.drop pat.length (c :: cs))
    else
      c :: removeAllCIFuel pat fuel cs

/-- `sanitizeEmailContent` from `crypto.ts`: remove `script` blocks, then
`iframe` blocks, then every case-insensitive occurrence of the literal
`javascript:`, then trim.  (Note: this function does not touch `object`
or `embed` tags, nor `vbscript:` URIs.) -/
def sanitizeEmailContent (content : String) : String :=
  let s1 := removeTagBlocksFuel "script".data content.data.length content.data
  let s2 := removeTagBlocksFuel "iframe".data s1.length s1
  let s3 := removeAllCIFuel "javascript:".data s2.length s2
  jsTrim (String.mk s3)

example : extractPlainText "<html><body><p>Hi  &amp; bye</p></body></html>" = "Hi & bye" := by decide
example : extractPlainText "a<b" = "a<b" := by decide
example : sanitizeEmailContent " <ScRiPt type=x>evil()</sCrIpT>ok " = "ok" := by decide
example : sanitizeEmailContent "<script>no close" = "<script>no close" := by decide
example : sanitizeEmailContent "<iframe src=1></iframe>x JaVaScRiPt:alert(1)" = "x alert(1)" := by decide
example : sanitizeEmailContent "<embed src=1>hello" = "<embed src=1>hello" := by decide
example : sanitizeEmailContent "<scripts>fine</scripts>" = "<scripts>fine</scripts>" := by decide
example : strIncludes "Unique constraint failed" "Unique constraint" = true := by decide
example : strIncludes "Database connection failed" "Unique constraint" = false := by decide

/-! ## Data model

The Prisma entities of migration `20250821000000_add_exchange_integration`
and of the `schema.prisma` client used by the services.  Times are
milliseconds since the epoch (`Date.getTime()`). -/

/-- `ProcessingStatus` enum of the Prisma schema. -/
inductive ProcessingStatus where
  | PENDING
  | PROCESSING
  | SUCCESS
  | FAILED
  | SKIPPED
deriving DecidableEq, Repr

/-- `ExchangeConnection` row. -/
structure ExchangeConnection where
  id : String
  userId : String
  tenantId : String
  clientId : String
  isActive : Bool
  createdAt : Nat
deriving DecidableEq, Repr

/-- `ExchangeToken` row (a TokenSet). -/
structure ExchangeToken where
  connectionId : String
  accessToken : String
  refreshToken : Option String
  tokenType : String
  expiresAt : Nat
  scope : Option String
  createdAt : Nat
deriving DecidableEq, Repr

/-- `ExchangeOAuthSession` row (an AuthorizationSession). -/
structure ExchangeOAuthSession where
  id : String
  state : String
  codeVerifier : String
  userId : String
  expiresAt : Nat
deriving DecidableEq, Repr

/-- `EmailProcessingLog` row (a ProcessingRecord). -/
structure EmailProcessingLog where
  connectionId : String
  messageId : String
  subject : Option String
  sender : Option String
  status : ProcessingStatus
  ticketId : Option String
  errorMessage : Option String
  processedAt : Option Nat
deriving DecidableEq, Repr

/-- `TicketEmailMapping` row (a ThreadLink). -/
structure TicketEmailMapping where
  ticketId : String
  messageId : String
  threadId : Option String
deriving DecidableEq, Repr

/-- The fields of a `Ticket` row that `createTicketFromEmail` writes. -/
structure Ticket where
  id : String
  title : String
  detail : String
  note : String
  priority : String
  status : String
  isComplete : Bool
  userId : String
  email : Option String
  name : Option String
deriving DecidableEq, Repr

/-- The fields of a `Comment` row that `addCommentToTicket` writes. -/
structure Comment where
  text : String
  ticketId : String
  userId : String
  isPublic : Bool
deriving DecidableEq, Repr

/-- The relational store.  `ticketSeq` models the store's id generator
for new tickets (Prisma cuid generation). -/
structure Db where
  exchangeConnections : List ExchangeConnection
  exchangeTokens : List ExchangeToken
  exchangeOAuthSessions : List ExchangeOAuthSession
  emailProcessingLogs : List EmailProcessingLog
  ticketEmailMappings : List TicketEmailMapping
  tickets : List Ticket
  comments : List Comment
  ticketSeq : Nat
deriving DecidableEq, Repr

/-- The empty store. -/
def Db.empty : Db :=
  { exchangeConnections := []
    exchangeTokens := []
    exchangeOAuthSessions := []
    emailProcessingLogs := []
    ticketEmailMappings := []
    tickets := []
    comments := []
    ticketSeq := 0 }

/-- `prisma.exchangeConnection.findUnique({ where: { id } })`. -/
def findConnection (db : Db) (connectionId : String) : Option ExchangeConnection :=
  db.exchangeConnections.find? (fun c => c.id == connectionId)

/-- The tokens of a connection. -/
def tokensFor (db : Db) (connectionId : String) : List ExchangeToken :=
  db.exchangeTokens.filter (fun t => t.connectionId == connectionId)

/-- One step of the newest-row selection: keep the later `createdAt`
(ties resolved towards the later row, which the theorems never rely on). -/
def pickNewerToken (acc : Option ExchangeToken) (t : ExchangeToken) : Option ExchangeToken :=
  match acc with
  | none => some t
  | some b => if b.createdAt ≤ t.createdAt then some t else some b

/-- `tokens: { orderBy: { createdAt: 'desc' }, take: 1 }` — the most
recently created token of the connection. -/
def latestTokenFor (db : Db) (connectionId : String) : Option ExchangeToken :=
  (tokensFor db connectionId).foldl pickNewerToken none

/-! ## Token manager — `MicrosoftGraphService` -/

/-- The shape of the provider's token-endpoint JSON response. -/
structure GraphTokenResponse where
  access_token : String
  refresh_token : Option String
  token_type : String
  expires_in : Nat
  scope : Option String
deriving DecidableEq, Repr

/-- Environment of a token-manager call: the clock, the configured
client secret, and the outcome of the `fetch` against the token
endpoint — `none` models a thrown network error, `some (ok, body)` a
response with `response.ok = ok`. -/
structure TokenEnv where
  now : Nat
  clientSecret : Option String
  fetchTokenResult : Option (Bool × GraphTokenResponse)

/-- The `prisma.exchangeToken.create` data block of
`refreshAccessToken`: the new TokenSet built from the endpoint response,
carrying the old refresh token over when the response omits one
(JavaScript `tokenData.refresh_token || currentToken.refreshToken`). -/
def refreshedToken (connectionId : String) (tokenData : GraphTokenResponse)
    (currentToken : ExchangeToken) (env : TokenEnv) : ExchangeToken :=
  { connectionId := connectionId
    accessToken := tokenData.access_token
    refreshToken := jsOrOptStr tokenData.refresh_token currentToken.refreshToken
    tokenType := tokenData.token_type
    expiresAt := env.now + tokenData.expires_in * 1000
    scope := tokenData.scope
    createdAt := env.now }

/-- `MicrosoftGraphService.refreshAccessToken`: exchanges the latest
refresh token for a new TokenSet.  Every failure (no connection, no
token, missing/empty refresh token, unconfigured client secret, network
error, non-2xx response) yields `false` with the store untouched; the
enclosing `try`/`catch` turns thrown errors into `false` as well. -/
def refreshAccessToken (db : Db) (env : TokenEnv) (connectionId : String) : Bool × Db :=
  match findConnection db connectionId with
  | none => (false, db)
  | some _connection =>
    match latestTokenFor db connectionId with
    | none => (false, db)
    | some currentToken =>
      if !jsOptStrTruthy currentToken.refreshToken then
        (false, db)
      else if !jsOptStrTruthy env.clientSecret then
        (false, db)
      else
        match env.fetchTokenResult with
        | none => (false, db)
        | some (ok, tokenData) =>
          if !ok then
            (false, db)
          else
            let newTok := refreshedToken connectionId tokenData currentToken env
            (true, { db with exchangeTokens := newTok :: db.exchangeTokens })

/-- `MicrosoftGraphService.getAccessToken`: returns the newest token's
access token if it expires more than the 5-minute buffer from now;
otherwise refreshes and returns the newest token afterwards, with no
second look at the buffer. -/
def getAccessToken (db : Db) (env : TokenEnv) (connectionId : String) :
    Except String (String × Db) :=
  match findConnection db connectionId with
  | none => .error "No valid connection or tokens found"
  | some _connection =>
    match latestTokenFor db connectionId with
    | none => .error "No valid connection or tokens found"
    | some token =>
      let expiryBuffer : Int := 5 * 60 * 1000
      if (token.expiresAt : Int) - (env.now : Int) > expiryBuffer then
        .ok (token.accessToken, db)
      else
        match refreshAccessToken db env connectionId with
        | (false, _) => .error "Failed to refresh access token"
        | (true, db2) =>
          match latestTokenFor db2 connectionId with
          | none => .error "Failed to retrieve refreshed token"
          | some newToken => .ok (newToken.accessToken, db2)

/-! ## Authorization flow — `OAuthService` -/

/-- `OAuthService.revokeTokens`: when the connection has a newest token
with a truthy refresh token, a best-effort revocation request is sent
(`remoteRevokeFails` says whether that `fetch` throws; either way the
error is swallowed), then every token of the connection is deleted.
With no connection or no token it returns `true` with nothing to do. -/
def revokeTokens (db : Db) (remoteRevokeFails : Bool) (connectionId : String) : Bool × Db :=
  match findConnection db connectionId with
  | none => (true, db)
  | some _connection =>
    match latestTokenFor db connectionId with
    | none => (true, db)
    | some token =>
      let _remoteOutcome := if jsOptStrTruthy token.refreshToken then some remoteRevokeFails else none
      let remaining := db.exchangeTokens.filter (fun t => !(t.connectionId == connectionId))
      (true, { db with exchangeTokens := remaining })

/-- The scope string of `OAuthService`. -/
def oauthScopes : String := "https://graph.microsoft.com/Mail.Read offline_access"

/-- Environment of an OAuth-flow call: clock, configured redirect URI
and client secret, and the outcome of the token-endpoint `fetch`. -/
structure OAuthEnv where
  now : Nat
  redirectUri : String
  clientSecret : Option String
  fetchTokenResult : Option (Bool × GraphTokenResponse)

/-! ## SHA-256 and base64url — the primitives behind `generatePKCECodes`

`crypto.ts` calls Node's `createHash('sha256')` and
`Buffer.toString('base64url')`; both are implemented here over byte
lists (natural numbers below 256), with 32-bit words reduced modulo
`2 ^ 32`. -/

/-- `2 ^ 32`. -/
def M32 : Nat := 4294967296

/-- 32-bit addition. -/
def add32 (a b : Nat) : Nat := (a + b) % M32

/-- 32-bit right rotation. -/
def rotr32 (x n : Nat) : Nat := ((x >>> n) ||| (x <<< (32 - n))) % M32

/-- Three-way xor. -/
def xor3 (a b c : Nat) : Nat := (a ^^^ b) ^^^ c

/-- SHA-256 `Ch` function. -/
def sha256Ch (x y z : Nat) : Nat := (x &&& y) ^^^ ((x ^^^ (M32 - 1)) &&& z)

/-- SHA-256 `Maj` function. -/
def sha256Maj (x y z : Nat) : Nat := ((x &&& y) ^^^ (x &&& z)) ^^^ (y &&& z)

/-- SHA-256 `Σ0`. -/
def bigSigma0 (x : Nat) : Nat := xor3 (rotr32 x 2) (rotr32 x 13) (rotr32 x 22)

/-- SHA-256 `Σ1`. -/
def bigSigma1 (x : Nat) : Nat := xor3 (rotr32 x 6) (rotr32 x 11) (rotr32 x 25)

/-- SHA-256 `σ0`. -/
def smallSigma0 (x : Nat) : Nat := xor3 (rotr32 x 7) (rotr32 x 18) (x >>> 3)

/-- SHA-256 `σ1`. -/
def smallSigma1 (x : Nat) : Nat := xor3 (rotr32 x 17) (rotr32 x 19) (x >>> 10)

/-- SHA-256 round constants. -/
def sha256K : List Nat := [
  1116352408, 1899447441, 3049323471, 3921009573, 961987163, 1508970993,
  2453635748, 2870763221, 3624381080, 310598401, 607225278, 1426881987,
  1925078388, 2162078206, 2614888103, 3248222580, 3835390401, 4022224774,
  264347078, 604807628, 770255983, 1249150122, 1555081692, 1996064986,
  2554220882, 2821834349, 2952996808, 3210313671, 3336571891, 3584528711,
  113926993, 338241895, 666307205, 773529912, 1294757372, 1396182291,
  1695183700, 1986661051, 2177026350, 2456956037, 2730485921, 2820302411,
  3259730800, 3345764771, 3516065817, 3600352804, 4094571909, 275423344,
  430227734, 506948616, 659060556, 883997877, 958139571, 1322822218,
  1537002063, 1747873779, 1955562222, 2024104815, 2227730452, 2361852424,
  2428436474, 2756734187, 3204031479, 3329325298]

/-- SHA-256 initial hash value. -/
def sha256H0 : List Nat := [
  1779033703, 3144134277, 1013904242, 2773480762,
  1359893119, 2600822924, 528734635, 1541459225]

/-- Big-endian 8-byte encoding. -/
def be64 (n : Nat) : List Nat :=
  [(n >>> 56) &&& 255, (n >>> 48) &&& 255, (n >>> 40) &&& 255, (n >>> 32) &&& 255,
   (n >>> 24) &&& 255, (n >>> 16) &&& 255, (n >>> 8) &&& 255, n &&& 255]

/-- Big-endian 4-byte encoding. -/
def be32 (n : Nat) : List Nat :=
  [(n >>> 24) &&& 255, (n >>> 16) &&& 255, (n >>> 8) &&& 255, n &&& 255]

/-- SHA-256 padding: `0x80`, zeros to 56 mod 64, 8-byte bit length. -/
def sha256Pad (msg : List Nat) : List Nat :=
  let padLen := (119 - msg.length % 64) % 64
  msg ++ 0x80 :: (List.replicate padLen 0 ++ be64 (msg.length * 8))

/-- Split into 64-byte blocks (fuel-driven, fuel ≥ length suffices). -/
def toBlocksFuel : Nat → List Nat → List (List Nat)
  | _, [] => []
  | 0, _ => []
  | fuel + 1, l => l.take 64 :: toBlocksFuel fuel (l.drop 64)

/-- The sixteen 32-bit big-endian words of one block. -/
def blockWords (block : List Nat) : List Nat :=
  (List.range 16).map (fun i =>
    (((block.getD (4 * i) 0) <<< 24) ||| ((block.getD (4 * i + 1) 0) <<< 16)) |||
    (((block.getD (4 * i + 2) 0) <<< 8) ||| (block.getD (4 * i + 3) 0)))

/-- One step of the message-schedule extension. -/
def scheduleStep (w : List Nat) (t : Nat) : List Nat :=
  w ++ [add32 (add32 (smallSigma1 (w.getD (t - 2) 0)) (w.getD (t - 7) 0))
              (add32 (smallSigma0 (w.getD (t - 15) 0)) (w.getD (t - 16) 0))]

/-- The 64-word message schedule. -/
def sha256Schedule (w16 : List Nat) : List Nat :=
  (List.range' 16 48).foldl scheduleStep w16

/-- One round of the compression function on state `[a,b,c,d,e,f,g,h]`. -/
def compressStep (w : List Nat) (st : List Nat) (t : Nat) : List Nat :=
  match st with
  | [a, b, c, d, e, f, g, h] =>
    let T1 := add32 (add32 (add32 h (bigSigma1 e)) (add32 (sha256Ch e f g) (sha256K.getD t 0)))
      (w.getD t 0)
    let T2 := add32 (bigSigma0 a) (sha256Maj a b c)
    [add32 T1 T2, a, b, c, add32 d T1, e, f, g]
  | other => other

/-- Process one 64-byte block. -/
def sha256Block (hs : List Nat) (block : List Nat) : List Nat :=
  let w := sha256Schedule (blockWords block)
  let st := (List.range 64).foldl (compressStep w) hs
  (hs.zip st).map (fun p => add32 p.1 p.2)

/-- SHA-256 of a byte list, as a 32-byte list. -/
def sha256 (msg : List Nat) : List Nat :=
  let padded := sha256Pad msg
  ((toBlocksFuel padded.length padded).foldl sha256Block sha256H0).map be32 |>.flatten

/-- The base64url alphabet. -/
def b64urlChar (n : Nat) : Char :=
  "ABCDEFGHIJKLMNOPQRSTUVWXYZabcdefghijklmnopqrstuvwxyz0123456789-_".data.getD n 'A'

/-- Unpadded base64url encoding of a byte list (Node
`Buffer.toString('base64url')`). -/
def b64urlGo : List Nat → List Char
  | [] => []
  | [b1] => [b64urlChar (b1 >>> 2), b64urlChar ((b1 &&& 3) <<< 4)]
  | [b1, b2] => [b64urlChar (b1 >>> 2), b64urlChar (((b1 &&& 3) <<< 4) ||| (b2 >>> 4)),
      b64urlChar ((b2 &&& 15) <<< 2)]
  | b1 :: b2 :: b3 :: rest =>
    b64urlChar (b1 >>> 2) :: b64urlChar (((b1 &&& 3) <<< 4) ||| (b2 >>> 4)) ::
    b64urlChar (((b2 &&& 15) <<< 2) ||| (b3 >>> 6)) :: b64urlChar (b3 &&& 63) :: b64urlGo rest

/-- Unpadded base64url encoding, as a string. -/
def base64urlEncode (bytes : List Nat) : String := String.mk (b64urlGo bytes)

/-- The bytes of an ASCII string (Node `hash.update(s)` uses UTF-8; the
strings hashed here — base64url alphabet — are ASCII). -/
def strBytes (s : String) : List Nat := s.data.map Char.toNat

example : sha256 [97, 98, 99] = [
  186, 120, 22, 191, 143, 1, 207, 234, 65, 65, 64, 222, 93, 174, 34, 35,
  176, 3, 97, 163, 150, 23, 122, 156, 180, 16, 255, 97, 242, 0, 21, 173] := by decide

example : sha256 [] = [
  227, 176, 196, 66, 152, 252, 28, 20, 154, 251, 244, 200, 153, 111, 185, 36,
  39, 174, 65, 228, 100, 155, 147, 76, 164, 149, 153, 27, 120, 82, 184, 85] := by decide

example : base64urlEncode [97, 98, 99] = "YWJj" := by decide
example : base64urlEncode [255, 224] = "_-A" := by decide

/-! ## PKCE — `crypto.ts` -/

/-- `generateState` from `crypto.ts`: 32 random bytes, base64url. -/
def generateState (rnd : List Nat) : String := base64urlEncode rnd

/-- The record returned by `generatePKCECodes`. -/
structure PKCECodes where
  codeVerifier : String
  codeChallenge : String
  codeChallengeMethod : String
deriving DecidableEq, Repr

/-- `generatePKCECodes` from `crypto.ts`: the verifier is the base64url
of 32 random bytes; the challenge is the base64url of the SHA-256 of the
verifier; the method is the constant `S256`. -/
def generatePKCECodes (rnd : List Nat) : PKCECodes :=
  let codeVerifier := base64urlEncode rnd
  { codeVerifier := codeVerifier
    codeChallenge := base64urlEncode (sha256 (strBytes codeVerifier))
    codeChallengeMethod := "S256" }

/-! ## `OAuthService.generateAuthUrl` and `OAuthService.handleCallback` -/

/-- Environment of `generateAuthUrl`: clock, configured redirect URI,
the store's id for the new session row, and the random bytes drawn for
the state and the PKCE verifier. -/
structure AuthUrlEnv where
  now : Nat
  redirectUri : String
  sessionId : String
  stateRandom : List Nat
  pkceRandom : List Nat

/-- The value returned by `generateAuthUrl`.  The authorization URL is
kept as its base plus its query parameters in `searchParams.append`
order (the string rendering with percent-encoding is not modelled). -/
structure OAuthUrlParams where
  authUrlBase : String
  authUrlQuery : List (String × String)
  state : String
  codeVerifier : String
deriving DecidableEq, Repr

/-- `OAuthService.generateAuthUrl`: draw state and PKCE material,
persist an `ExchangeOAuthSession` with a 10-minute expiry, and return
the authorization URL parameters. -/
def generateAuthUrl (db : Db) (env : AuthUrlEnv) (userId tenantId clientId : String) :
    OAuthUrlParams × Db :=
  let state := generateState env.stateRandom
  let pkce := generatePKCECodes env.pkceRandom
  let session : ExchangeOAuthSession :=
    { id := env.sessionId
      state := state
      codeVerifier := pkce.codeVerifier
      userId := userId
      expiresAt := env.now + 10 * 60 * 1000 }
  let query := [
    ("client_id", clientId),
    ("response_type", "code"),
    ("redirect_uri", env.redirectUri),
    ("scope", oauthScopes),
    ("state", state),
    ("code_challenge", pkce.codeChallenge),
    ("code_challenge_method", pkce.codeChallengeMethod),
    ("response_mode", "query")]
  ({ authUrlBase := "https://login.microsoftonline.com/" ++ tenantId ++ "/oauth2/v2.0/authorize"
     authUrlQuery := query
     state := state
     codeVerifier := pkce.codeVerifier },
   { db with exchangeOAuthSessions := db.exchangeOAuthSessions ++ [session] })

/-- Newest-row selection among connections. -/
def pickNewerConnection (acc : Option ExchangeConnection) (c : ExchangeConnection) :
    Option ExchangeConnection :=
  match acc with
  | none => some c
  | some b => if b.createdAt ≤ c.createdAt then some c else some b

/-- `findFirst({ where: { userId, isActive: true }, orderBy: { createdAt: 'desc' } })`. -/
def latestActiveConnectionFor (db : Db) (userId : String) : Option ExchangeConnection :=
  (db.exchangeConnections.filter (fun c => c.userId == userId && c.isActive)).foldl
    pickNewerConnection none

/-- `OAuthService.handleCallback`: look the session up by its state
token (failing when no stored session carries exactly that state),
enforce its expiry, resolve the newest active connection of the
session's user, exchange the code, persist the token, and consume the
session.  The result pairs the (possibly updated) store with either the
error message or the connection id. -/
def handleCallback (db : Db) (env : OAuthEnv) (_code state : String) :
    Db × Except String String :=
  match db.exchangeOAuthSessions.find? (fun s => s.state == state) with
  | none => (db, .error "Invalid or expired OAuth session")
  | some session =>
    if session.expiresAt < env.now then
      let db2 := { db with exchangeOAuthSessions :=
        db.exchangeOAuthSessions.filter (fun s => !(s.id == session.id)) }
      (db2, .error "OAuth session has expired")
    else
      match latestActiveConnectionFor db session.userId with
      | none => (db, .error "No active connection found for user")
      | some connection =>
        if !jsOptStrTruthy env.clientSecret then
          (db, .error "Microsoft client secret not configured")
        else
          match env.fetchTokenResult with
          | none => (db, .error "fetch failed")
          | some (ok, tokenData) =>
            if !ok then
              (db, .error "Token exchange failed")
            else
              let newTok : ExchangeToken :=
                { connectionId := connection.id
                  accessToken := tokenData.access_token
                  refreshToken := tokenData.refresh_token
                  tokenType := tokenData.token_type
                  expiresAt := env.now + tokenData.expires_in * 1000
                  scope := tokenData.scope
                  createdAt := env.now }
              let db2 := { db with
                exchangeTokens := newTok :: db.exchangeTokens
                exchangeOAuthSessions :=
                  db.exchangeOAuthSessions.filter (fun s => !(s.id == session.id)) }
              (db2, .ok connection.id)

/-! ## Ingestion engine — `EmailProcessingService` -/

/-- The `emailAddress` object inside a Graph message's `from` field. -/
structure EmailAddressField where
  address : Option String
  name : Option String
deriving DecidableEq, Repr

/-- A Graph message body. -/
structure EmailBody where
  contentType : String
  content : String
deriving DecidableEq, Repr

/-- A Graph mail message as the engine reads it.  `fromField` stands for
`from?.emailAddress` (`from` is a Lean keyword); `receivedDateTime` is
the receipt instant — the engine never reads it. -/
structure GraphEmailMessage where
  id : String
  subject : String
  fromField : Option EmailAddressField
  body : Option EmailBody
  receivedDateTime : Nat
  conversationId : String
deriving DecidableEq, Repr

/-- Environment of an ingestion run: the clock, the batch that
`getEmails` returned (the `$top=limit` cap is already applied by the
Graph call), and injected store failures — `ticketFault m` (resp.
`mappingFault m`) is the error the store throws when creating the
ticket (resp. the ThreadLink) for message id `m`, `none` meaning the
write succeeds. -/
structure ProcEnv where
  now : Nat
  emails : List GraphEmailMessage
  ticketFault : String → Option String
  mappingFault : String → Option String

/-- `EmailProcessingService.logEmailProcessing`: an upsert keyed on
`messageId`.  The `ticketId` and `errorMessage` arguments are
`Option (Option String)`: the outer `none` models an omitted
(`undefined`) argument, which Prisma ignores in the `update` branch;
`some none` models an explicit `null`. -/
def logEmailProcessing (db : Db) (now : Nat) (connectionId messageId : String)
    (subject sender : Option String) (status : ProcessingStatus)
    (ticketId errorMessage : Option (Option String)) : Db :=
  let processedAt : Option Nat :=
    if status = .SUCCESS || status = .FAILED then some now else none
  if db.emailProcessingLogs.any (fun l => l.messageId == messageId) then
    { db with emailProcessingLogs := db.emailProcessingLogs.map (fun l =>
        if l.messageId == messageId then
          { l with
            status := status
            ticketId := match ticketId with | none => l.ticketId | some v => v
            errorMessage := match errorMessage with | none => l.errorMessage | some v => v
            processedAt := processedAt }
        else l) }
  else
    { db with emailProcessingLogs := db.emailProcessingLogs ++
        [{ connectionId := connectionId
           messageId := messageId
           subject := subject
           sender := sender
           status := status
           ticketId := ticketId.getD none
           errorMessage := errorMessage.getD none
           processedAt := processedAt }] }

/-- The `prisma.ticket.create` data block of `createTicketFromEmail`:
title from the subject with the `'No Subject'` fallback, detail from the
plain text truncated by `substring(0, 1000)`, note from the sanitised
HTML, requester identity from the sender, owner from the connection.
The id comes from the store's generator (`ticketSeq`). -/
def ticketFromEmail (db : Db) (connection : ExchangeConnection)
    (message : GraphEmailMessage) : Ticket :=
  let htmlContent := jsOrStr (message.body.map (fun b => b.content)) ""
  { id := "ticket-" ++ toString db.ticketSeq
    title := jsOrStr (some message.subject) "No Subject"
    detail := String.mk ((extractPlainText htmlContent).data.take 1000)
    note := sanitizeEmailContent htmlContent
    priority := "Low"
    status := "needs_support"
    isComplete := false
    userId := connection.userId
    email := message.fromField.bind (fun f => f.address)
    name := jsOrOptStr (message.fromField.bind (fun f => f.name))
                       (message.fromField.bind (fun f => f.address)) }

/-- `EmailProcessingService.createTicketFromEmail`: build the ticket
from the message under the connection's owner.  Fails when the
connection is missing or when the store rejects the ticket write. -/
def createTicketFromEmail (db : Db) (env : ProcEnv) (message : GraphEmailMessage)
    (connectionId : String) : Except String (String × Db) :=
  match findConnection db connectionId with
  | none => .error "Connection not found"
  | some connection =>
    match env.ticketFault message.id with
    | some e => .error e
    | none =>
      let ticket := ticketFromEmail db connection message
      .ok (ticket.id, { db with tickets := db.tickets ++ [ticket], ticketSeq := db.ticketSeq + 1 })

/-- `EmailProcessingService.addCommentToTicket`: append a private
comment holding the plain text of the message, owned by the ticket's
user; fails when the ticket does not exist. -/
def addCommentToTicket (db : Db) (ticketId : String) (message : GraphEmailMessage) :
    Db × Option String :=
  match db.tickets.find? (fun t => t.id == ticketId) with
  | none => (db, some ("Ticket " ++ ticketId ++ " not found"))
  | some ticket =>
    let plainTextContent := extractPlainText (jsOrStr (message.body.map (fun b => b.content)) "")
    let row : Comment :=
      { text := plainTextContent, ticketId := ticketId, userId := ticket.userId, isPublic := false }
    ({ db with comments := db.comments ++ [row] }, none)

/-- `prisma.ticketEmailMapping.create`: an injected fault throws its
message; otherwise a row clashing with the unique `(ticketId,
messageId)` index throws a unique-constraint error, and a fresh row is
appended. -/
def ticketEmailMappingCreate (db : Db) (fault : Option String) (row : TicketEmailMapping) :
    Except String Db :=
  match fault with
  | some e => .error e
  | none =>
    if db.ticketEmailMappings.any
        (fun mp => mp.ticketId == row.ticketId && mp.messageId == row.messageId) then
      .error "Unique constraint failed on the fields: ticketId, messageId"
    else
      .ok { db with ticketEmailMappings := db.ticketEmailMappings ++ [row] }

/-- `EmailProcessingService.linkEmailToTicket`: create the mapping,
swallowing errors whose message mentions a unique constraint and
propagating every other error. -/
def linkEmailToTicket (db : Db) (fault : Option String) (messageId ticketId : String)
    (threadId : Option String) : Except String Db :=
  let row : TicketEmailMapping := { ticketId := ticketId, messageId := messageId, threadId := threadId }
  match ticketEmailMappingCreate db fault row with
  | .ok db2 => .ok db2
  | .error e => if strIncludes e "Unique constraint" then .ok db else .error e

/-- The tail of `processEmail` after the ticket or comment exists: link
the message to the ticket and record the terminal `SUCCESS` log. -/
def processEmailFinish (db : Db) (env : ProcEnv) (message : GraphEmailMessage)
    (connectionId ticketId : String) : Db × Option String :=
  match linkEmailToTicket db (env.mappingFault message.id) message.id ticketId
      (some message.conversationId) with
  | .error e => (db, some e)
  | .ok db2 =>
    (logEmailProcessing db2 env.now connectionId message.id (some message.subject)
      (message.fromField.bind (fun f => f.address)) .SUCCESS (some (some ticketId)) none, none)

/-- `EmailProcessingService.processEmail`: skip messages whose id
already has a log row; otherwise record a `PROCESSING` log, fold the
message into an existing conversation ticket (matching a mapping by
message id or by conversation id) or create a new ticket, link it, and
record `SUCCESS`.  The pair carries the store as mutated so far plus
the error thrown, if any. -/
def processEmail (db : Db) (env : ProcEnv) (message : GraphEmailMessage)
    (connectionId : String) : Db × Option String :=
  match db.emailProcessingLogs.find? (fun l => l.messageId == message.id) with
  | some _existingLog => (db, none)
  | none =>
    let sender := message.fromField.bind (fun f => f.address)
    let db1 := logEmailProcessing db env.now connectionId message.id (some message.subject)
      sender .PROCESSING none none
    let existingMapping := db1.ticketEmailMappings.find? (fun mp =>
      mp.messageId == message.id || mp.threadId == some message.conversationId)
    match existingMapping with
    | some mapping =>
      match addCommentToTicket db1 mapping.ticketId message with
      | (db2, some e) => (db2, some e)
      | (db2, none) => processEmailFinish db2 env message connectionId mapping.ticketId
    | none =>
      match createTicketFromEmail db1 env message connectionId with
      | .error e => (db1, some e)
      | .ok (ticketId, db2) => processEmailFinish db2 env message connectionId ticketId

/-- The `{ processed, errors }` counts returned by `processEmails`. -/
structure ProcessResult where
  processed : Nat
  errors : Nat
deriving DecidableEq, Repr

/-- The `for (const email of emails)` loop of `processEmails`: a
successful `processEmail` increments `processed`; a thrown error is
caught, recorded as a `FAILED` log carrying the error text and an
explicit `null` ticket id, and increments `errors`. -/
def processEmailsLoop (env : ProcEnv) (connectionId : String) :
    List GraphEmailMessage → Db → Nat → Nat → Db × Nat × Nat
  | [], db, processed, errors => (db, processed, errors)
  | email :: rest, db, processed, errors =>
    match processEmail db env email connectionId with
    | (db2, none) => processEmailsLoop env connectionId rest db2 (processed + 1) errors
    | (db2, some e) =>
      let db3 := logEmailProcessing db2 env.now connectionId email.id (some email.subject)
        (email.fromField.bind (fun f => f.address)) .FAILED (some none) (some (some e))
      processEmailsLoop env connectionId rest db3 processed errors.succ

/-- `EmailProcessingService.processEmails`: verify the connection is
present and active (else throw), then run the loop over the fetched
batch and return the aggregate counts with the new store. -/
def processEmails (db : Db) (env : ProcEnv) (connectionId : String) :
    Except String (ProcessResult × Db) :=
  match findConnection db connectionId with
  | none => .error "Connection not found or inactive"
  | some connection =>
    if !connection.isActive then
      .error "Connection not found or inactive"
    else
      match processEmailsLoop env connectionId env.emails db 0 0 with
      | (db2, processed, errors) => .ok ({ processed := processed, errors := errors }, db2)

/-! ## Outbound dispatcher — `EmailService.sendTicketEmail` -/

/-- The `TicketEmailContext` of `types/email`. -/
structure TicketEmailContext where
  ticketId : String
  ticketNumber : String
  subject : String
  userId : Option String
  isReply : Option Bool
  originalMessageId : Option String
  threadId : Option String
deriving DecidableEq, Repr

/-- The transport-agnostic `EmailMessage` that `sendTicketEmail` builds
and hands to the provider.  Headers are kept in object-literal order. -/
structure EmailMessage where
  toAddr : List String
  subject : String
  html : String
  threadId : Option String
  inReplyTo : Option String
  references : Option String
  headers : List (String × String)
deriving DecidableEq, Repr

/-- JavaScript truthiness of a possibly-undefined boolean. -/
def jsOptBoolTruthy (b : Option Bool) : Bool := b.getD false

/-- The message-construction part of `EmailService.sendTicketEmail`:
rewrite the subject, thread via `inReplyTo`/`references`, and attach the
tracking headers (the conditional spreads become conditional list
segments, and exactly one `X-Peppermint-Message-Type` is attached). -/
def buildTicketEmailMessage (toAddr : List String) (subject htmlContent : String)
    (context : TicketEmailContext) : EmailMessage :=
  let baseHeaders := [
    ("X-Peppermint-Ticket-ID", context.ticketId),
    ("X-Peppermint-Ticket-Number", context.ticketNumber),
    ("X-Peppermint-System", "peppermint-helpdesk"),
    ("X-Auto-Response-Suppress", "OOF, DR, RN, NRN, AutoReply")]
  let threadHeader := if jsOptStrTruthy context.threadId
    then [("X-Peppermint-Thread-ID", context.threadId.getD "")] else []
  let origHeader := if jsOptStrTruthy context.originalMessageId
    then [("X-Peppermint-Original-Message-ID", context.originalMessageId.getD "")] else []
  let typeHeader := if jsOptBoolTruthy context.isReply
    then [("X-Peppermint-Message-Type", "reply")]
    else [("X-Peppermint-Message-Type", "notification")]
  { toAddr := toAddr
    subject := "[Ticket #" ++ context.ticketNumber ++ "] " ++ subject
    html := htmlContent
    threadId := context.threadId
    inReplyTo := context.originalMessageId
    references := if jsOptStrTruthy context.originalMessageId then context.originalMessageId else none
    headers := baseHeaders ++ (threadHeader ++ (origHeader ++ typeHeader)) }

/-- Value of a header by name, `none` when absent. -/
def headerValue (msg : EmailMessage) (name : String) : Option String :=
  (msg.headers.find? (fun h => h.1 == name)).map (fun h => h.2)

/-! ## Claim theorems -/

/-- Helper: `body?.content || ''` is the content itself. -/
theorem jsOrStr_some_empty (s : String) : jsOrStr (some s) "" = s := by
  change (if s.isEmpty = true then "" else s) = s
  by_cases h : s.isEmpty
  · rw [if_pos h]
    exact ((String.isEmpty_iff s).mp h).symm
  · rw [if_neg h]


/-- Helper: the newest-row fold never forgets a row it has seen. -/
theorem foldl_pickNewerToken_ne_none (l : List ExchangeToken) (b : ExchangeToken) :
    l.foldl pickNewerToken (some b) ≠ none := by
  induction l generalizing b with
  | nil => simp
  | cons t ts ih =>
    show ts.foldl pickNewerToken (pickNewerToken (some b) t) ≠ none
    by_cases h : b.createdAt ≤ t.createdAt
    · rw [show pickNewerToken (some b) t = some t from by simp [pickNewerToken, h]]
      exact ih t
    · rw [show pickNewerToken (some b) t = some b from by simp [pickNewerToken, h]]
      exact ih b

/-- Helper: no newest token means no tokens at all. -/
theorem latestTokenFor_none (db : Db) (connectionId : String)
    (h : latestTokenFor db connectionId = none) : tokensFor db connectionId = [] := by
  cases hl : tokensFor db connectionId with
  | nil => rfl
  | cons t ts =>
    exfalso
    apply foldl_pickNewerToken_ne_none ts t
    have : latestTokenFor db connectionId = ts.foldl pickNewerToken (some t) := by
      unfold latestTokenFor
      rw [hl]
      rfl
    rw [← this, h]

/-- Claim C4: for a connection present in the store, `revokeTokens`
returns `true` and leaves zero TokenSets for that connection, whether or
not the best-effort remote revocation call fails; in particular it
returns `true` when there was nothing to revoke. -/
theorem revokeTokens_total (db : Db) (remoteRevokeFails : Bool) (connectionId : String)
    (conn : ExchangeConnection) (hconn : findConnection db connectionId = some conn) :
    (revokeTokens db remoteRevokeFails connectionId).1 = true ∧
    tokensFor (revokeTokens db remoteRevokeFails connectionId).2 connectionId = [] := by
  cases ht : latestTokenFor db connectionId with
  | none =>
    have hempty : tokensFor db connectionId = [] := latestTokenFor_none db connectionId ht
    simp [revokeTokens, hconn, ht, hempty]
  | some token =>
    refine ⟨by simp [revokeTokens, hconn, ht], ?_⟩
    simp only [revokeTokens, hconn, ht]
    show ((db.exchangeTokens.filter fun t => !(t.connectionId == connectionId)).filter
      fun t => t.connectionId == connectionId) = []
    rw [List.filter_filter]
    simp



/-- The store after a successful refresh: exactly one TokenSet appended. -/
def dbAfterRefresh (db : Db) (env : TokenEnv) (connectionId : String)
    (data : GraphTokenResponse) (cur : ExchangeToken) : Db :=
  { db with exchangeTokens := refreshedToken connectionId data cur env :: db.exchangeTokens }

/-- Helper: the success path of `refreshAccessToken` appends exactly the
refreshed TokenSet. -/
theorem refreshAccessToken_success_eq (db : Db) (env : TokenEnv) (connectionId : String)
    (conn : ExchangeConnection) (cur : ExchangeToken) (data : GraphTokenResponse)
    (hc : findConnection db connectionId = some conn)
    (ht : latestTokenFor db connectionId = some cur)
    (hrt : jsOptStrTruthy cur.refreshToken = true)
    (hcs : jsOptStrTruthy env.clientSecret = true)
    (hf : env.fetchTokenResult = some (true, data)) :
    refreshAccessToken db env connectionId =
      (true, dbAfterRefresh db env connectionId data cur) := by
  simp [refreshAccessToken, dbAfterRefresh, hc, ht, hrt, hcs, hf]

/-- Claim C7: a successful refresh appends exactly one new TokenSet,
carrying the old refresh token over when the endpoint omits one; every
failure (no TokenSet, missing refresh token, network error, non-2xx
response) returns `false` with no TokenSet created or mutated and
without throwing. -/
theorem refreshAccessToken_spec (db : Db) (env : TokenEnv) (connectionId : String)
    (conn : ExchangeConnection) (cur : ExchangeToken) (data : GraphTokenResponse) :
    (findConnection db connectionId = some conn →
     latestTokenFor db connectionId = some cur →
     jsOptStrTruthy cur.refreshToken = true →
     jsOptStrTruthy env.clientSecret = true →
     env.fetchTokenResult = some (true, data) →
       refreshAccessToken db env connectionId =
         (true, dbAfterRefresh db env connectionId data cur) ∧
       ((data.refresh_token = none ∨ data.refresh_token = some "") →
         (refreshedToken connectionId data cur env).refreshToken = cur.refreshToken)) ∧
    (latestTokenFor db connectionId = none →
       refreshAccessToken db env connectionId = (false, db)) ∧
    (latestTokenFor db connectionId = some cur → jsOptStrTruthy cur.refreshToken = false →
       refreshAccessToken db env connectionId = (false, db)) ∧
    (env.fetchTokenResult = none → refreshAccessToken db env connectionId = (false, db)) ∧
    (∀ d, env.fetchTokenResult = some (false, d) →
       refreshAccessToken db env connectionId = (false, db)) := by
  refine ⟨?_, ?_, ?_, ?_, ?_⟩
  · intro hc ht hrt hcs hf
    refine ⟨refreshAccessToken_success_eq db env connectionId conn cur data hc ht hrt hcs hf, ?_⟩
    rintro (h | h) <;>
      simp [refreshedToken, jsOrOptStr, h, show ("".isEmpty = true) from rfl]
  · intro ht
    cases hc : findConnection db connectionId with
    | none => simp [refreshAccessToken, hc]
    | some c => simp [refreshAccessToken, hc, ht]
  · intro ht hrt
    cases hc : findConnection db connectionId with
    | none => simp [refreshAccessToken, hc]
    | some c => simp [refreshAccessToken, hc, ht, hrt]
  · intro hf
    cases hc : findConnection db connectionId with
    | none => simp [refreshAccessToken, hc]
    | some c =>
      cases ht : latestTokenFor db connectionId with
      | none => simp [refreshAccessToken, hc, ht]
      | some tok =>
        cases hrt : jsOptStrTruthy tok.refreshToken <;>
          cases hcs : jsOptStrTruthy env.clientSecret <;>
          simp [refreshAccessToken, hc, ht, hrt, hcs, hf]
  · intro d hf
    cases hc : findConnection db connectionId with
    | none => simp [refreshAccessToken, hc]
    | some c =>
      cases ht : latestTokenFor db connectionId with
      | none => simp [refreshAccessToken, hc, ht]
      | some tok =>
        cases hrt : jsOptStrTruthy tok.refreshToken <;>
          cases hcs : jsOptStrTruthy env.clientSecret <;>
          simp [refreshAccessToken, hc, ht, hrt, hcs, hf]


/-- Helper: the newest-row fold keeps a row newer than the whole list. -/
theorem foldl_pickNewerToken_const (l : List ExchangeToken) (b : ExchangeToken)
    (h : ∀ t ∈ l, t.createdAt < b.createdAt) :
    l.foldl pickNewerToken (some b) = some b := by
  induction l with
  | nil => rfl
  | cons t ts ih =>
    show ts.foldl pickNewerToken (pickNewerToken (some b) t) = some b
    have hlt : ¬ b.createdAt ≤ t.createdAt := by
      have := h t (List.mem_cons_self t ts)
      omega
    rw [show pickNewerToken (some b) t = some b from by simp [pickNewerToken, hlt]]
    exact ih (fun x hx => h x (List.mem_cons_of_mem t hx))

/-- Helper: after a refresh the connection's token list gains exactly
the refreshed TokenSet at the front. -/
theorem tokensFor_dbAfterRefresh (db : Db) (env : TokenEnv) (connectionId : String)
    (data : GraphTokenResponse) (cur : ExchangeToken) :
    tokensFor (dbAfterRefresh db env connectionId data cur) connectionId =
      refreshedToken connectionId data cur env :: tokensFor db connectionId := by
  simp [tokensFor, dbAfterRefresh, refreshedToken]

/-- Helper: when every stored token of the connection is older than the
clock, the refreshed TokenSet is the newest one afterwards. -/
theorem latestTokenFor_dbAfterRefresh (db : Db) (env : TokenEnv) (connectionId : String)
    (data : GraphTokenResponse) (cur : ExchangeToken)
    (h : ∀ t ∈ db.exchangeTokens, t.connectionId = connectionId → t.createdAt < env.now) :
    latestTokenFor (dbAfterRefresh db env connectionId data cur) connectionId =
      some (refreshedToken connectionId data cur env) := by
  unfold latestTokenFor
  rw [tokensFor_dbAfterRefresh]
  show (tokensFor db connectionId).foldl pickNewerToken
    (some (refreshedToken connectionId data cur env)) = _
  apply foldl_pickNewerToken_const
  intro t htmem
  have hmem := List.mem_filter.mp htmem
  exact h t hmem.1 (by simpa using hmem.2)

/-- Claim C3 (amended): when the newest TokenSet expires more than the
5-minute buffer in the future, `getAccessToken` returns its access token
without refreshing; when it expires at or within the buffer, a refresh
is triggered and the freshly stored token is returned — with no second
buffer check, so the returned token may itself expire within the buffer
when the provider grants a short-lived token. -/
theorem getAccessToken_buffer_policy (db : Db) (env : TokenEnv) (connectionId : String)
    (conn : ExchangeConnection) (token : ExchangeToken) (data : GraphTokenResponse)
    (hc : findConnection db connectionId = some conn)
    (ht : latestTokenFor db connectionId = some token) :
    ((token.expiresAt : Int) - (env.now : Int) > 300000 →
      getAccessToken db env connectionId = .ok (token.accessToken, db)) ∧
    ((token.expiresAt : Int) - (env.now : Int) ≤ 300000 →
      jsOptStrTruthy token.refreshToken = true →
      jsOptStrTruthy env.clientSecret = true →
      env.fetchTokenResult = some (true, data) →
      (∀ t ∈ db.exchangeTokens, t.connectionId = connectionId → t.createdAt < env.now) →
      getAccessToken db env connectionId =
        .ok (data.access_token, dbAfterRefresh db env connectionId data token)) := by
  constructor
  · intro h
    have h5 : (token.expiresAt : Int) - (env.now : Int) > 5 * 60 * 1000 := by omega
    simp [getAccessToken, hc, ht, h5]
    intro hle
    exact absurd hle (by omega)
  · intro h hrt hcs hf hlt
    have h5 : ¬ ((token.expiresAt : Int) - (env.now : Int) > 5 * 60 * 1000) := by omega
    have href := refreshAccessToken_success_eq db env connectionId conn token data hc ht hrt hcs hf
    have hlatest := latestTokenFor_dbAfterRefresh db env connectionId data token hlt
    simp [getAccessToken, hc, ht, h5, href, hlatest, refreshedToken]
    intro hgt
    exact absurd hgt (by omega)

/-- Claim C10: when the ThreadLink row for `(ticketId, messageId)`
already exists, `linkEmailToTicket` swallows the unique-constraint error
and returns with the store unchanged (no duplicate row); any other
persistence error is propagated to the caller. -/
theorem linkEmailToTicket_unique_graceful (db : Db) (messageId ticketId : String)
    (threadId : Option String) (e : String) :
    ((∃ mp ∈ db.ticketEmailMappings, mp.ticketId = ticketId ∧ mp.messageId = messageId) →
      linkEmailToTicket db none messageId ticketId threadId = .ok db) ∧
    (strIncludes e "Unique constraint" = false →
      linkEmailToTicket db (some e) messageId ticketId threadId = .error e) := by
  constructor
  · rintro ⟨mp, hmem, hT, hM⟩
    have hany : (db.ticketEmailMappings.any
        (fun mp => mp.ticketId == ticketId && mp.messageId == messageId)) = true := by
      rw [List.any_eq_true]
      exact ⟨mp, hmem, by simp [hT, hM]⟩
    have hinc : strIncludes "Unique constraint failed on the fields: ticketId, messageId"
        "Unique constraint" = true := by decide
    simp [linkEmailToTicket, ticketEmailMappingCreate, hany, hinc]
  · intro he
    simp [linkEmailToTicket, ticketEmailMappingCreate, he]

/-- Claim C5: the outbound dispatcher rewrites the subject to
`[Ticket #number] subject`; it sets `X-Peppermint-Message-Type` to
`notification` when `isReply` is absent or falsy and to `reply` when it
is `true`; it attaches `X-Peppermint-Original-Message-ID` exactly when
`originalMessageId` is supplied (also setting `inReplyTo`/`references`
to it) and `X-Peppermint-Thread-ID` exactly when `threadId` is
supplied; and the four fixed tracking headers are always present. -/
theorem sendTicketEmail_contract (toAddr : List String) (subject htmlContent : String)
    (context : TicketEmailContext) :
    (buildTicketEmailMessage toAddr subject htmlContent context).subject =
      "[Ticket #" ++ context.ticketNumber ++ "] " ++ subject ∧
    headerValue (buildTicketEmailMessage toAddr subject htmlContent context)
      "X-Peppermint-Ticket-ID" = some context.ticketId ∧
    headerValue (buildTicketEmailMessage toAddr subject htmlContent context)
      "X-Peppermint-Ticket-Number" = some context.ticketNumber ∧
    headerValue (buildTicketEmailMessage toAddr subject htmlContent context)
      "X-Peppermint-System" = some "peppermint-helpdesk" ∧
    headerValue (buildTicketEmailMessage toAddr subject htmlContent context)
      "X-Auto-Response-Suppress" = some "OOF, DR, RN, NRN, AutoReply" ∧
    (jsOptBoolTruthy context.isReply = false →
      headerValue (buildTicketEmailMessage toAddr subject htmlContent context)
        "X-Peppermint-Message-Type" = some "notification") ∧
    (context.isReply = some true →
      headerValue (buildTicketEmailMessage toAddr subject htmlContent context)
        "X-Peppermint-Message-Type" = some "reply") ∧
    (∀ m, context.originalMessageId = some m → m ≠ "" →
      headerValue (buildTicketEmailMessage toAddr subject htmlContent context)
        "X-Peppermint-Original-Message-ID" = some m ∧
      (buildTicketEmailMessage toAddr subject htmlContent context).inReplyTo = some m ∧
      (buildTicketEmailMessage toAddr subject htmlContent context).references = some m) ∧
    (context.originalMessageId = none →
      headerValue (buildTicketEmailMessage toAddr subject htmlContent context)
        "X-Peppermint-Original-Message-ID" = none ∧
      (buildTicketEmailMessage toAddr subject htmlContent context).references = none) ∧
    (∀ t, context.threadId = some t → t ≠ "" →
      headerValue (buildTicketEmailMessage toAddr subject htmlContent context)
        "X-Peppermint-Thread-ID" = some t) ∧
    (context.threadId = none →
      headerValue (buildTicketEmailMessage toAddr subject htmlContent context)
        "X-Peppermint-Thread-ID" = none) := by
  obtain ⟨tid, tnum, csubj, cuid, irep, omid, othid⟩ := context
  refine ⟨rfl, rfl, rfl, rfl, rfl, ?_, ?_, ?_, ?_, ?_, ?_⟩
  · intro h
    rcases othid with _ | t <;> rcases omid with _ | m <;>
      simp_all [buildTicketEmailMessage, headerValue, jsOptStrTruthy] <;>
      split <;> simp
  · intro h
    subst h
    rcases othid with _ | t <;> rcases omid with _ | m <;>
      simp_all [buildTicketEmailMessage, headerValue, jsOptStrTruthy, jsOptBoolTruthy] <;>
      split <;> simp
  · intro m hm hne
    subst hm
    have hms : m.isEmpty = false := by
      cases h : m.isEmpty
      · rfl
      · exact absurd ((String.isEmpty_iff m).mp h) hne
    rcases othid with _ | t <;>
      simp_all [buildTicketEmailMessage, headerValue, jsOptStrTruthy]
  · intro h
    subst h
    rcases othid with _ | t <;>
      simp_all [buildTicketEmailMessage, headerValue, jsOptStrTruthy] <;>
      split <;> simp [Bool.not_eq_true]
  · intro t ht hne
    subst ht
    have hts : t.isEmpty = false := by
      cases h : t.isEmpty
      · rfl
      · exact absurd ((String.isEmpty_iff t).mp h) hne
    simp [buildTicketEmailMessage, headerValue, jsOptStrTruthy, hts]
  · intro h
    subst h
    simp [buildTicketEmailMessage, headerValue, jsOptStrTruthy]
    split <;> simp

/-! ## Concrete fixtures for witnesses and counterexamples -/

/-- An active connection fixture. -/
def connA : ExchangeConnection :=
  { id := "conn1", userId := "user1", tenantId := "tenant1", clientId := "client1",
    isActive := true, createdAt := 0 }

/-- A TokenSet expiring 4 minutes after the fixture clock (inside the
5-minute buffer). -/
def tokNearExpiry : ExchangeToken :=
  { connectionId := "conn1", accessToken := "at1", refreshToken := some "rt1",
    tokenType := "Bearer", expiresAt := 1240000, scope := none, createdAt := 50 }

/-- A TokenSet expiring well past the buffer. -/
def tokFresh : ExchangeToken :=
  { connectionId := "conn1", accessToken := "at1", refreshToken := some "rt1",
    tokenType := "Bearer", expiresAt := 2000000, scope := none, createdAt := 50 }

/-- A token-endpoint response granting a 60-second token. -/
def dataShort : GraphTokenResponse :=
  { access_token := "at2", refresh_token := some "rt2", token_type := "Bearer",
    expires_in := 60, scope := none }

/-- Clock at 1000000 ms, configured secret, endpoint answering 2xx. -/
def envTok : TokenEnv :=
  { now := 1000000, clientSecret := some "secret", fetchTokenResult := some (true, dataShort) }

/-- Store with the near-expiry token. -/
def dbNear : Db := { Db.empty with exchangeConnections := [connA], exchangeTokens := [tokNearExpiry] }

/-- Store with the fresh token. -/
def dbFresh : Db := { Db.empty with exchangeConnections := [connA], exchangeTokens := [tokFresh] }

/-- Store with a connection but no tokens. -/
def dbNoTok : Db := { Db.empty with exchangeConnections := [connA] }

/-- Witness for C3: a token more than 5 minutes from expiry is returned
without a refresh; one 4 minutes from expiry triggers the refresh. -/
theorem getAccessToken_buffer_policy_witness :
    getAccessToken dbFresh envTok "conn1" = .ok ("at1", dbFresh) ∧
    getAccessToken dbNear envTok "conn1" =
      .ok ("at2", dbAfterRefresh dbNear envTok "conn1" dataShort tokNearExpiry) := by
  have h1 := getAccessToken_buffer_policy dbFresh envTok "conn1" connA tokFresh dataShort
    (by decide) (by decide)
  have h2 := getAccessToken_buffer_policy dbNear envTok "conn1" connA tokNearExpiry dataShort
    (by decide) (by decide)
  exact ⟨h1.1 (by decide), h2.2 (by decide) (by decide) (by decide) (by decide) (by decide)⟩

/-- Counterexample for C3: after the triggered refresh, `getAccessToken`
returns the freshly granted 60-second token, whose expiry lies within
the 5-minute buffer — refuting "never returns an access token whose
expiry lies within the buffer". -/
theorem getAccessToken_within_buffer_counterexample :
    getAccessToken dbNear envTok "conn1" =
      .ok ("at2", dbAfterRefresh dbNear envTok "conn1" dataShort tokNearExpiry) ∧
    latestTokenFor (dbAfterRefresh dbNear envTok "conn1" dataShort tokNearExpiry) "conn1" =
      some (refreshedToken "conn1" dataShort tokNearExpiry envTok) ∧
    ((refreshedToken "conn1" dataShort tokNearExpiry envTok).expiresAt : Int) -
      (envTok.now : Int) ≤ 300000 := by
  refine ⟨?_, by decide, by decide⟩
  have h2 := getAccessToken_buffer_policy dbNear envTok "conn1" connA tokNearExpiry dataShort
    (by decide) (by decide)
  exact h2.2 (by decide) (by decide) (by decide) (by decide) (by decide)

/-- Witness for C4: revocation with a failing remote call still deletes
both stored TokenSets and returns `true`. -/
theorem revokeTokens_total_witness :
    (revokeTokens dbNear true "conn1").1 = true ∧
    tokensFor (revokeTokens dbNear true "conn1").2 "conn1" = [] :=
  revokeTokens_total dbNear true "conn1" connA (by decide)

/-- Witness for C7: the fixture refresh succeeds and appends the
refreshed TokenSet; with no stored TokenSet it returns `false` with the
store untouched. -/
theorem refreshAccessToken_spec_witness :
    refreshAccessToken dbNear envTok "conn1" =
      (true, dbAfterRefresh dbNear envTok "conn1" dataShort tokNearExpiry) ∧
    refreshAccessToken dbNoTok envTok "conn1" = (false, dbNoTok) := by
  have h := refreshAccessToken_spec dbNear envTok "conn1" connA tokNearExpiry dataShort
  have h2 := refreshAccessToken_spec dbNoTok envTok "conn1" connA tokNearExpiry dataShort
  exact ⟨(h.1 (by decide) (by decide) (by decide) (by decide) (by decide)).1,
    h2.2.1 (by decide)⟩

/-- A ThreadLink fixture. -/
def mapW : TicketEmailMapping := { ticketId := "t1", messageId := "m1", threadId := some "conv1" }

/-- Store holding just that ThreadLink. -/
def dbMapW : Db := { Db.empty with ticketEmailMappings := [mapW] }

/-- Witness for C10: re-linking the already-linked pair returns normally
with the store unchanged; a non-unique-constraint store error is
propagated. -/
theorem linkEmailToTicket_unique_graceful_witness :
    linkEmailToTicket dbMapW none "m1" "t1" (some "conv1") = .ok dbMapW ∧
    linkEmailToTicket dbMapW (some "Database connection failed") "m1" "t1" none =
      .error "Database connection failed" := by
  have h := linkEmailToTicket_unique_graceful dbMapW "m1" "t1" (some "conv1")
    "Database connection failed"
  have h2 := linkEmailToTicket_unique_graceful dbMapW "m1" "t1" none
    "Database connection failed"
  exact ⟨h.1 (by decide), h2.2 (by decide)⟩

/-- A context fixture for the outbound-header witness. -/
def ctxReply : TicketEmailContext :=
  { ticketId := "t1", ticketNumber := "42", subject := "s", userId := none,
    isReply := some true, originalMessageId := some "<abc@x>", threadId := none }

/-- Witness for C5: at a concrete reply context the subject, the
message-type, the original-message-id and the fixed headers all take
their specified values. -/
theorem sendTicketEmail_contract_witness :
    (buildTicketEmailMessage ["to@x"] "Hello" "<p>b</p>" ctxReply).subject =
      "[Ticket #42] Hello" ∧
    headerValue (buildTicketEmailMessage ["to@x"] "Hello" "<p>b</p>" ctxReply)
      "X-Peppermint-Message-Type" = some "reply" ∧
    headerValue (buildTicketEmailMessage ["to@x"] "Hello" "<p>b</p>" ctxReply)
      "X-Peppermint-Original-Message-ID" = some "<abc@x>" ∧
    headerValue (buildTicketEmailMessage ["to@x"] "Hello" "<p>b</p>" ctxReply)
      "X-Peppermint-Thread-ID" = none ∧
    headerValue (buildTicketEmailMessage ["to@x"] "Hello" "<p>b</p>" ctxReply)
      "X-Peppermint-Ticket-ID" = some "t1" ∧
    headerValue (buildTicketEmailMessage ["to@x"] "Hello" "<p>b</p>" ctxReply)
      "X-Auto-Response-Suppress" = some "OOF, DR, RN, NRN, AutoReply" := by
  obtain ⟨h1, h2, h3, h4, h5, h6, h7, h8, h9, h10, h11⟩ :=
    sendTicketEmail_contract ["to@x"] "Hello" "<p>b</p>" ctxReply
  exact ⟨h1, h7 rfl, (h8 "<abc@x>" rfl (by decide)).1, h11 rfl, h2, h5⟩

/-- Claim C8: the PKCE pair satisfies
`codeChallenge = base64url(sha256(codeVerifier))` with method `S256`;
the authorization URL embeds `client_id`, `redirect_uri`, `scope`,
`state`, `code_challenge` and `code_challenge_method=S256`; and
`handleCallback` fails whenever the given state matches no stored
session's state token exactly (so mutating one character of a valid
state invalidates the callback). -/
theorem pkce_state_validation (rnd : List Nat) (db dbA : Db) (aenv : AuthUrlEnv)
    (oenv : OAuthEnv) (userId tenantId clientId code st : String) :
    (generatePKCECodes rnd).codeChallenge =
      base64urlEncode (sha256 (strBytes (generatePKCECodes rnd).codeVerifier)) ∧
    (generatePKCECodes rnd).codeChallengeMethod = "S256" ∧
    ("client_id", clientId) ∈ (generateAuthUrl dbA aenv userId tenantId clientId).1.authUrlQuery ∧
    ("redirect_uri", aenv.redirectUri) ∈
      (generateAuthUrl dbA aenv userId tenantId clientId).1.authUrlQuery ∧
    ("scope", oauthScopes) ∈ (generateAuthUrl dbA aenv userId tenantId clientId).1.authUrlQuery ∧
    ("state", (generateAuthUrl dbA aenv userId tenantId clientId).1.state) ∈
      (generateAuthUrl dbA aenv userId tenantId clientId).1.authUrlQuery ∧
    ("code_challenge", (generatePKCECodes aenv.pkceRandom).codeChallenge) ∈
      (generateAuthUrl dbA aenv userId tenantId clientId).1.authUrlQuery ∧
    ("code_challenge_method", "S256") ∈
      (generateAuthUrl dbA aenv userId tenantId clientId).1.authUrlQuery ∧
    ((∀ s ∈ db.exchangeOAuthSessions, s.state ≠ st) →
      (handleCallback db oenv code st).2 = .error "Invalid or expired OAuth session") := by
  refine ⟨rfl, rfl, ?_, ?_, ?_, ?_, ?_, ?_, ?_⟩
  · simp [generateAuthUrl]
  · simp [generateAuthUrl]
  · simp [generateAuthUrl]
  · simp [generateAuthUrl]
  · simp [generateAuthUrl]
  · simp [generateAuthUrl, generatePKCECodes]
  · intro h
    have hfind : db.exchangeOAuthSessions.find? (fun s => s.state == st) = none := by
      rw [List.find?_eq_none]
      intro x hx
      simp [h x hx]
    simp [handleCallback, hfind]

/-- An OAuth-flow environment fixture. -/
def envOAuth : OAuthEnv :=
  { now := 1000, redirectUri := "http://localhost:3000/cb", clientSecret := some "secret",
    fetchTokenResult := some (true, dataShort) }

/-- An auth-url environment fixture. -/
def envAuthUrl : AuthUrlEnv :=
  { now := 1000, redirectUri := "http://localhost:3000/cb", sessionId := "sess1",
    stateRandom := [1, 2, 3], pkceRandom := [4, 5, 6] }

/-- A stored authorization session whose state is `generateState [1,2,3]`. -/
def sessW : ExchangeOAuthSession :=
  { id := "sess1", state := generateState [1, 2, 3], codeVerifier := "v", userId := "user1",
    expiresAt := 601000 }

/-- Store holding that session. -/
def dbSess : Db := { Db.empty with exchangeOAuthSessions := [sessW] }

/-- Witness for C8: a concrete PKCE pair satisfies the challenge
formula, the generated query embeds the parameters, and a state
differing from the stored one in its last character is rejected. -/
theorem pkce_state_validation_witness :
    (generatePKCECodes [4, 5, 6]).codeChallenge =
      base64urlEncode (sha256 (strBytes (generatePKCECodes [4, 5, 6]).codeVerifier)) ∧
    ("code_challenge_method", "S256") ∈
      (generateAuthUrl Db.empty envAuthUrl "user1" "tenant1" "client1").1.authUrlQuery ∧
    (handleCallback dbSess envOAuth "code" (generateState [1, 2, 4])).2 =
      .error "Invalid or expired OAuth session" := by
  obtain ⟨h1, h2, h3, h4, h5, h6, h7, h8, h9⟩ :=
    pkce_state_validation [4, 5, 6] dbSess Db.empty envAuthUrl envOAuth
      "user1" "tenant1" "client1" "code" (generateState [1, 2, 4])
  exact ⟨h1, h8, h9 (by decide)⟩

/-- Helper: a message whose id already has a log row is skipped with no
store change and no error. -/
theorem processEmail_skip (db : Db) (env : ProcEnv) (message : GraphEmailMessage)
    (connectionId : String)
    (h : (db.emailProcessingLogs.find? (fun l => l.messageId == message.id)).isSome) :
    processEmail db env message connectionId = (db, none) := by
  cases hfind : db.emailProcessingLogs.find? (fun l => l.messageId == message.id) with
  | none => rw [hfind] at h; exact absurd h (by simp)
  | some log => simp [processEmail, hfind]

/-- Helper: a batch of already-logged messages leaves the store as it
is, adds the batch length to `processed` and nothing to `errors`. -/
theorem processEmailsLoop_all_skipped (env : ProcEnv) (connectionId : String)
    (msgs : List GraphEmailMessage) (db : Db)
    (h : ∀ m ∈ msgs, (db.emailProcessingLogs.find? (fun l => l.messageId == m.id)).isSome) :
    ∀ p e : Nat, processEmailsLoop env connectionId msgs db p e = (db, p + msgs.length, e) := by
  induction msgs with
  | nil => intro p e; simp [processEmailsLoop]
  | cons m rest ih =>
    intro p e
    have hm := h m (List.mem_cons_self m rest)
    have hskip := processEmail_skip db env m connectionId hm
    rw [processEmailsLoop, hskip]
    show processEmailsLoop env connectionId rest db (p + 1) e = _
    rw [ih (fun x hx => h x (List.mem_cons_of_mem m hx)) (p + 1) e]
    have harith : p + 1 + rest.length = p + (rest.length + 1) := by omega
    simp [List.length_cons, harith]

/-- Claim C1 (amended): a batch consisting of messages whose ids already
have ProcessingRecords is replayed with no new ThreadLink, ticket,
comment or log row — the store is returned unchanged — and contributes
nothing to `errors`; each skipped message is, however, counted in
`processed`. -/
theorem processEmails_idempotent_replay (db : Db) (env : ProcEnv) (connectionId : String)
    (conn : ExchangeConnection)
    (hc : findConnection db connectionId = some conn) (hact : conn.isActive = true)
    (hall : ∀ m ∈ env.emails, ∃ log ∈ db.emailProcessingLogs, log.messageId = m.id) :
    processEmails db env connectionId =
      .ok ({ processed := env.emails.length, errors := 0 }, db) := by
  have hloop := processEmailsLoop_all_skipped env connectionId env.emails db
    (fun m hm => by
      rw [List.find?_isSome]
      obtain ⟨log, hmem, hid⟩ := hall m hm
      exact ⟨log, hmem, by simp [hid]⟩) 0 0
  simp [processEmails, hc, hact, hloop]

/-- No injected store faults. -/
def noFault : String → Option String := fun _ => none

/-- Sender fixture. -/
def fromAlice : EmailAddressField := { address := some "alice@x.com", name := some "Alice" }

/-- A message fixture whose id is already logged in `dbLogged`. -/
def msgM1 : GraphEmailMessage :=
  { id := "m1", subject := "s", fromField := some fromAlice,
    body := some { contentType := "html", content := "<p>b</p>" },
    receivedDateTime := 10, conversationId := "conv1" }

/-- A terminal log row for `m1`. -/
def logM1 : EmailProcessingLog :=
  { connectionId := "conn1", messageId := "m1", subject := some "s",
    sender := some "alice@x.com", status := .SUCCESS, ticketId := some "t0",
    errorMessage := none, processedAt := some 5 }

/-- Store with the connection and the existing log row. -/
def dbLogged : Db :=
  { Db.empty with exchangeConnections := [connA], emailProcessingLogs := [logM1] }

/-- A replay batch containing only the already-processed message. -/
def envReplay : ProcEnv :=
  { now := 100, emails := [msgM1], ticketFault := noFault, mappingFault := noFault }

/-- Witness for C1: replaying the logged message changes nothing and
counts `1` processed, `0` errors. -/
theorem processEmails_idempotent_replay_witness :
    processEmails dbLogged envReplay "conn1" =
      .ok ({ processed := 1, errors := 0 }, dbLogged) :=
  processEmails_idempotent_replay dbLogged envReplay "conn1" connA
    (by decide) (by decide) (by decide)

/-- Counterexample for C1: the replayed message produces no side effect,
but it contributes `1`, not `0`, to the returned `processed` count. -/
theorem processEmails_replay_processed_counterexample :
    processEmails dbLogged envReplay "conn1" =
      .ok ({ processed := 1, errors := 0 }, dbLogged) ∧
    ({ processed := 1, errors := 0 } : ProcessResult).processed ≠ 0 := by
  exact ⟨by rfl, by decide⟩

/-- Store holding only the active connection. -/
def dbConnOnly : Db := { Db.empty with exchangeConnections := [connA] }

/-- Conversation fixture, message A: receipt time `tA`, the earliest. -/
def msgA (t : Nat) : GraphEmailMessage :=
  { id := "mA", subject := "Help", fromField := some fromAlice,
    body := some { contentType := "html", content := "A content" },
    receivedDateTime := t, conversationId := "conv1" }

/-- Conversation fixture, message B: receipt time `tB`. -/
def msgB (t : Nat) : GraphEmailMessage :=
  { id := "mB", subject := "Re: Help", fromField := some fromAlice,
    body := some { contentType := "html", content := "B content" },
    receivedDateTime := t, conversationId := "conv1" }

/-- Conversation fixture, message C: receipt time `tC`, the latest. -/
def msgC (t : Nat) : GraphEmailMessage :=
  { id := "mC", subject := "Re: Re: Help", fromField := some fromAlice,
    body := some { contentType := "html", content := "C content" },
    receivedDateTime := t, conversationId := "conv1" }

/-- The one-conversation batch delivered out of receipt order:
C first, then A, then B. -/
def envOutOfOrder (tA tB tC : Nat) : ProcEnv :=
  { now := 100, emails := [msgC tC, msgA tA, msgB tB],
    ticketFault := noFault, mappingFault := noFault }

/-- A terminal `SUCCESS` log row of the out-of-order run. -/
def logOk (messageId subject : String) : EmailProcessingLog :=
  { connectionId := "conn1", messageId := messageId, subject := some subject,
    sender := some "alice@x.com", status := .SUCCESS, ticketId := some "ticket-0",
    errorMessage := none, processedAt := some 100 }

/-- A ThreadLink row of the out-of-order run. -/
def mapOk (messageId : String) : TicketEmailMapping :=
  { ticketId := "ticket-0", messageId := messageId, threadId := some "conv1" }

/-- A private comment row of the out-of-order run. -/
def commentOk (text : String) : Comment :=
  { text := text, ticketId := "ticket-0", userId := "user1", isPublic := false }

/-- The store after ingesting the out-of-order batch: the ticket is
built from C — the first *delivered* message — and the comments hold A's
then B's text, in delivery order. -/
def dbAfterOutOfOrder : Db :=
  { exchangeConnections := [connA]
    exchangeTokens := []
    exchangeOAuthSessions := []
    emailProcessingLogs := [logOk "mC" "Re: Re: Help", logOk "mA" "Help", logOk "mB" "Re: Help"]
    ticketEmailMappings := [mapOk "mC", mapOk "mA", mapOk "mB"]
    tickets := [{ id := "ticket-0", title := "Re: Re: Help", detail := "C content",
                  note := "C content", priority := "Low", status := "needs_support",
                  isComplete := false, userId := "user1", email := some "alice@x.com",
                  name := some "Alice" }]
    comments := [commentOk "A content", commentOk "B content"]
    ticketSeq := 1 }

/-- Claim C2 (amended): for the conversation whose messages A (receipt
time 1), B (time 2), C (time 3) are delivered in the order `[C, A, B]`,
the engine processes them in delivery order: the ticket is created from
C's — the first delivered message's — subject and content, and comments
are added for A then B.  Receipt times are never consulted by the
engine; no per-conversation sort exists. -/
theorem processEmails_delivery_order :
    processEmails dbConnOnly (envOutOfOrder 1 2 3) "conn1" =
      .ok ({ processed := 3, errors := 0 }, dbAfterOutOfOrder) ∧
    dbAfterOutOfOrder.tickets.map Ticket.title = ["Re: Re: Help"] ∧
    dbAfterOutOfOrder.tickets.map Ticket.detail = ["C content"] ∧
    dbAfterOutOfOrder.comments.map Comment.text = ["A content", "B content"] := by
  exact ⟨by rfl, by rfl, by rfl, by rfl⟩

/-- Counterexample for C2: with receipt times 1, 2, 3 delivered
`[C, A, B]`, the resulting ticket carries C's content — not A's — and
the comments are A's then B's text, not B's then C's. -/
theorem processEmails_delivery_order_counterexample :
    processEmails dbConnOnly (envOutOfOrder 1 2 3) "conn1" =
      .ok ({ processed := 3, errors := 0 }, dbAfterOutOfOrder) ∧
    dbAfterOutOfOrder.tickets.map Ticket.detail = ["C content"] ∧
    ("C content" : String) ≠ "A content" ∧
    dbAfterOutOfOrder.comments.map Comment.text = ["A content", "B content"] ∧
    (["A content", "B content"] : List String) ≠ ["B content", "C content"] := by
  exact ⟨by rfl, by rfl, by decide, by rfl, by decide⟩

/-- Partial-batch fixture, message 1 (own conversation). -/
def msgP1 : GraphEmailMessage :=
  { id := "p1", subject := "s1", fromField := some fromAlice,
    body := some { contentType := "html", content := "body one" },
    receivedDateTime := 11, conversationId := "cv1" }

/-- Partial-batch fixture, message 2 — its ticket write will fail. -/
def msgP2 : GraphEmailMessage :=
  { id := "p2", subject := "s2", fromField := some fromAlice,
    body := some { contentType := "html", content := "body two" },
    receivedDateTime := 12, conversationId := "cv2" }

/-- Partial-batch fixture, message 3 (own conversation). -/
def msgP3 : GraphEmailMessage :=
  { id := "p3", subject := "s3", fromField := some fromAlice,
    body := some { contentType := "html", content := "body three" },
    receivedDateTime := 13, conversationId := "cv3" }

/-- Store faults: the ticket write for message `p2` throws. -/
def faultOn2 : String → Option String :=
  fun id => if id == "p2" then some "Processing failed" else none

/-- The three-message batch whose second member fails. -/
def envPartial : ProcEnv :=
  { now := 100, emails := [msgP1, msgP2, msgP3], ticketFault := faultOn2,
    mappingFault := noFault }

/-- A terminal log row of the partial-batch run. -/
def logPartial (messageId subject : String) (status : ProcessingStatus)
    (ticketId errorMessage : Option String) : EmailProcessingLog :=
  { connectionId := "conn1", messageId := messageId, subject := some subject,
    sender := some "alice@x.com", status := status, ticketId := ticketId,
    errorMessage := errorMessage, processedAt := some 100 }

/-- A ticket row of the partial-batch run. -/
def ticketPartial (id title body : String) : Ticket :=
  { id := id, title := title, detail := body, note := body, priority := "Low",
    status := "needs_support", isComplete := false, userId := "user1",
    email := some "alice@x.com", name := some "Alice" }

/-- The store after the partial batch: messages 1 and 3 become tickets,
message 2 is recorded as `FAILED` with the thrown error text. -/
def dbAfterPartial : Db :=
  { exchangeConnections := [connA]
    exchangeTokens := []
    exchangeOAuthSessions := []
    emailProcessingLogs := [
      logPartial "p1" "s1" .SUCCESS (some "ticket-0") none,
      logPartial "p2" "s2" .FAILED none (some "Processing failed"),
      logPartial "p3" "s3" .SUCCESS (some "ticket-1") none]
    ticketEmailMappings := [
      { ticketId := "ticket-0", messageId := "p1", threadId := some "cv1" },
      { ticketId := "ticket-1", messageId := "p3", threadId := some "cv3" }]
    tickets := [ticketPartial "ticket-0" "s1" "body one",
                ticketPartial "ticket-1" "s3" "body three"]
    comments := []
    ticketSeq := 2 }

/-- Claim C6: in a batch of 3 retrievable messages whose 2nd raises
during ticket creation, the engine still attempts and records the 3rd,
records the 2nd's failure as a `FAILED` ProcessingRecord carrying the
error text, does not throw, and returns `processed = 2, errors = 1`. -/
theorem processEmails_partial_batch :
    processEmails dbConnOnly envPartial "conn1" =
      .ok ({ processed := 2, errors := 1 }, dbAfterPartial) ∧
    dbAfterPartial.emailProcessingLogs.map
      (fun l => (l.messageId, l.status)) =
      [("p1", .SUCCESS), ("p2", .FAILED), ("p3", .SUCCESS)] ∧
    dbAfterPartial.emailProcessingLogs.map EmailProcessingLog.errorMessage =
      [none, some "Processing failed", none] ∧
    dbAfterPartial.tickets.map Ticket.id = ["ticket-0", "ticket-1"] := by
  exact ⟨by rfl, by rfl, by rfl, by rfl⟩

/-- Claim C9 (amended): a created ticket takes the subject as title with
the fixed `'No Subject'` fallback; its detail is the plain-text
extraction of the body truncated to at most 1000 characters; its note is
the body sanitised by `sanitizeEmailContent` — which strips `script` and
`iframe` tags and `javascript:` URIs only (`object`/`embed` tags and
`vbscript:` URIs are not stripped) and trims; and it is assigned to the
connection's owning user with the sender's address and name as requester
identity. -/
theorem createTicketFromEmail_policy (db : Db) (env : ProcEnv) (message : GraphEmailMessage)
    (connectionId : String) (conn : ExchangeConnection)
    (hc : findConnection db connectionId = some conn)
    (hfault : env.ticketFault message.id = none) :
    createTicketFromEmail db env message connectionId =
      .ok ((ticketFromEmail db conn message).id,
        { db with tickets := db.tickets ++ [ticketFromEmail db conn message],
                  ticketSeq := db.ticketSeq + 1 }) ∧
    (ticketFromEmail db conn message).title = jsOrStr (some message.subject) "No Subject" ∧
    (message.subject = "" → (ticketFromEmail db conn message).title = "No Subject") ∧
    (ticketFromEmail db conn message).detail =
      String.mk ((extractPlainText
        (jsOrStr (message.body.map (fun b => b.content)) "")).data.take 1000) ∧
    (ticketFromEmail db conn message).detail.length ≤ 1000 ∧
    (ticketFromEmail db conn message).note =
      sanitizeEmailContent (jsOrStr (message.body.map (fun b => b.content)) "") ∧
    (ticketFromEmail db conn message).userId = conn.userId ∧
    (ticketFromEmail db conn message).email = message.fromField.bind (fun f => f.address) ∧
    (ticketFromEmail db conn message).name =
      jsOrOptStr (message.fromField.bind (fun f => f.name))
                 (message.fromField.bind (fun f => f.address)) := by
  refine ⟨?_, rfl, ?_, rfl, ?_, rfl, rfl, rfl, rfl⟩
  · simp [createTicketFromEmail, hc, hfault]
  · intro h
    simp [ticketFromEmail, jsOrStr, h, show ("".isEmpty = true) from rfl]
  · show ((extractPlainText
      (jsOrStr (message.body.map (fun b => b.content)) "")).data.take 1000).length ≤ 1000
    rw [List.length_take]
    exact min_le_left _ _

/-- A message fixture whose body carries an `embed` tag. -/
def msgEmbed : GraphEmailMessage :=
  { id := "mE", subject := "s", fromField := some fromAlice,
    body := some { contentType := "html", content := "<embed src=1>hello" },
    receivedDateTime := 1, conversationId := "cvE" }

/-- A message fixture with an empty subject. -/
def msgNoSubject : GraphEmailMessage :=
  { id := "mN", subject := "", fromField := some fromAlice,
    body := some { contentType := "html", content := "<p>x</p>" },
    receivedDateTime := 1, conversationId := "cvN" }

/-- An environment with an empty batch and no faults. -/
def envPlain : ProcEnv :=
  { now := 0, emails := [], ticketFault := noFault, mappingFault := noFault }

/-- Counterexample for C9: the note of a ticket created from a body
containing an `embed` tag still contains `<embed` — and `vbscript:`
URIs survive sanitisation as well — refuting the claim that `object`,
`embed` and `vbscript:` are stripped. -/
theorem createTicketFromEmail_embed_counterexample :
    (ticketFromEmail dbConnOnly connA msgEmbed).note = "<embed src=1>hello" ∧
    strIncludes (ticketFromEmail dbConnOnly connA msgEmbed).note "<embed" = true ∧
    sanitizeEmailContent "a vbscript:evil()" = "a vbscript:evil()" ∧
    createTicketFromEmail dbConnOnly envPlain msgEmbed "conn1" =
      .ok ("ticket-0",
        { dbConnOnly with tickets := [ticketFromEmail dbConnOnly connA msgEmbed],
                          ticketSeq := 1 }) := by
  exact ⟨by rfl, by decide, by rfl, by rfl⟩

/-- Witness for C9: for the empty-subject fixture the create call
returns the policy ticket, whose title falls back to `No Subject` and
whose detail respects the 1000-character cap. -/
theorem createTicketFromEmail_policy_witness :
    createTicketFromEmail dbConnOnly envPlain msgNoSubject "conn1" =
      .ok ((ticketFromEmail dbConnOnly connA msgNoSubject).id,
        { dbConnOnly with
            tickets := dbConnOnly.tickets ++ [ticketFromEmail dbConnOnly connA msgNoSubject],
            ticketSeq := dbConnOnly.ticketSeq + 1 }) ∧
    (ticketFromEmail dbConnOnly connA msgNoSubject).title = "No Subject" ∧
    (ticketFromEmail dbConnOnly connA msgNoSubject).detail.length ≤ 1000 := by
  obtain ⟨h1, h2, h3, h4, h5, h6, h7, h8, h9⟩ :=
    createTicketFromEmail_policy dbConnOnly envPlain msgNoSubject "conn1" connA
      (by decide) (by rfl)
  exact ⟨h1, h3 rfl, h5⟩

end Peppermint
